import Mathlib

/-
  Verification of the VpnManager repository's core components against its
  natural-language specification.

  The Python source under src/vpn_manager is embedded shallowly:
  - pure functions become Lean functions;
  - stateful methods become explicit state-passing functions over small
    state structures;
  - every subprocess invocation, HTTP fetch or file write is abstracted by
    an environment record whose fields supply that call's outcome
    (success/stdout, nonzero exit, timeout, ...); the embedded control flow
    around those outcomes follows the source line by line;
  - logging calls are dropped: they carry no data flow.
-/

namespace VpnManager

/-- Helper for `strContains`: does `needle` occur at some position of `hay`? -/
def containsAux (needle : List Char) : List Char → Bool
  | [] => needle.isEmpty
  | hay@(_ :: rest) => List.isPrefixOf needle hay || containsAux needle rest

/-- Python's substring test `needle in hay`. -/
def strContains (hay needle : String) : Bool :=
  containsAux needle.data hay.data

/-- Python's `str.lower()` (the strings involved are ASCII). -/
def lowerStr (s : String) : String :=
  String.mk (s.data.map Char.toLower)

/-- Characters Python's `str.strip()` removes. -/
def isStripChar (c : Char) : Bool :=
  c = ' ' || c = '\t' || c = '\n' || c = '\r' || c = '\x0b' || c = '\x0c'

/-- Python's `str.strip()`: remove leading and trailing whitespace. -/
def stripStr (s : String) : String :=
  String.mk (((s.data.dropWhile isStripChar).reverse.dropWhile isStripChar).reverse)

/-- Split a character list on a separator character (Python `str.split(sep)`
semantics: empty pieces are kept). -/
def splitCharAux (sep : Char) : List Char → List Char → List (List Char)
  | [], acc => [acc.reverse]
  | c :: cs, acc =>
    if c = sep then acc.reverse :: splitCharAux sep cs []
    else splitCharAux sep cs (c :: acc)

/-- Python's `s.split(sep)` for a one-character separator. -/
def splitStr (s : String) (sep : Char) : List String :=
  (splitCharAux sep s.data []).map String.mk

/-! ## Data model (src/vpn_manager/core/types.py)

`VPNServer` is the dataclass of core/types.py.  Python floats (`score`,
`latency`) are modelled as rationals: every comparison the code performs on
them is an exact order comparison, faithfully represented on `ℚ`. -/

structure VPNServer where
  id : String
  hostname : String
  ip_address : String
  country : String
  city : String
  isp : String
  protocol : String
  port : Nat
  latency : Option ℚ
  load : Option Nat
  score : ℚ
  config_path : Option String
deriving DecidableEq, Repr

/-! ## Server selector (src/vpn_manager/core/ip_rotator.py) -/

namespace IPRotator

/-- Python's `s.latency or float('inf')` from `get_best_server`'s key
function, with `none` standing for `+∞`.  `or` takes the right operand
whenever the left is falsy, so a latency of `None` *and* a latency equal to
`0` both become `+∞`. -/
def pyLat (s : VPNServer) : Option ℚ :=
  match s.latency with
  | none => none
  | some l => if l = 0 then none else some l

/-- Strict order on the latency component (`none` = `+∞`). -/
def latLt : Option ℚ → Option ℚ → Bool
  | some a, some b => decide (a < b)
  | some _, none => true
  | none, _ => false

/-- Python's tuple comparison `(-a.score, a.latency or inf) <
(-b.score, b.latency or inf)` used as the `min` key in `get_best_server`. -/
def keyLt (a b : VPNServer) : Bool :=
  decide (-a.score < -b.score) ||
    (decide (-a.score = -b.score) && latLt (pyLat a) (pyLat b))

/-- Python `min(xs, key=...)`: fold keeping the first strict minimum. -/
def minByKey (x : VPNServer) (xs : List VPNServer) : VPNServer :=
  xs.foldl (fun best s => if keyLt s best then s else best) x

/-- The `available_servers` list of `get_best_server`: Python's
`if exclude:` is falsy for both `None` and the empty string. -/
def availableServers (servers : List VPNServer) (exclude : Option String) :
    List VPNServer :=
  match exclude with
  | none => servers
  | some e => if e = "" then servers else servers.filter (fun s => s.id ≠ e)

/-- `IPRotator.get_best_server` (ip_rotator.py, lines 41-62). -/
def get_best_server (servers : List VPNServer) (exclude : Option String) :
    Option VPNServer :=
  match availableServers servers exclude with
  | [] => none
  | x :: xs => some (minByKey x xs)

/-- The ordering the claim describes: minimize `(-score, latency ?? +∞)`
with genuine null-coalescing, so a known latency of `0` is `0`, not `+∞`. -/
def claimKeyLt (a b : VPNServer) : Bool :=
  decide (-a.score < -b.score) ||
    (decide (-a.score = -b.score) && latLt a.latency b.latency)

theorem latLt_irrefl (a : Option ℚ) : latLt a a = false := by
  cases a with
  | none => rfl
  | some l => simp [latLt]

theorem keyLt_irrefl (a : VPNServer) : keyLt a a = false := by
  simp [keyLt, latLt_irrefl]

theorem latLt_asymm {a b : Option ℚ} (h : latLt a b = true) : latLt b a = false := by
  cases a with
  | none => simp [latLt] at h
  | some la =>
    cases b with
    | none => rfl
    | some lb =>
      simp only [latLt, decide_eq_true_eq] at h
      simp only [latLt, decide_eq_false_iff_not, not_lt]
      exact le_of_lt h

theorem latLt_cotrans {c a : Option ℚ} (h : latLt c a = true) (b : Option ℚ) :
    latLt c b = true ∨ latLt b a = true := by
  cases c with
  | none => simp [latLt] at h
  | some lc =>
    cases b with
    | none => exact Or.inl (by simp [latLt])
    | some lb =>
      rcases lt_or_le lc lb with hlt | hle
      · exact Or.inl (by simp [latLt, hlt])
      · right
        cases a with
        | none => simp [latLt]
        | some la =>
          simp only [latLt, decide_eq_true_eq] at h ⊢
          exact lt_of_le_of_lt hle h

theorem keyLt_asymm {a b : VPNServer} (h : keyLt a b = true) : keyLt b a = false := by
  rw [Bool.eq_false_iff]
  intro hcon
  simp only [keyLt, Bool.or_eq_true, Bool.and_eq_true, decide_eq_true_eq] at h hcon
  rcases h with hlt | ⟨heq, hlat⟩ <;> rcases hcon with hlt2 | ⟨heq2, hlat2⟩
  · exact lt_asymm hlt hlt2
  · exact absurd heq2 (ne_of_gt hlt)
  · exact absurd heq (ne_of_gt hlt2)
  · rw [latLt_asymm hlat] at hlat2
    exact Bool.false_ne_true hlat2

theorem keyLt_cotrans {c a : VPNServer} (h : keyLt c a = true) (b : VPNServer) :
    keyLt c b = true ∨ keyLt b a = true := by
  simp only [keyLt, Bool.or_eq_true, Bool.and_eq_true, decide_eq_true_eq] at h ⊢
  rcases h with hlt | ⟨heq, hlat⟩
  · rcases lt_trichotomy (-c.score) (-b.score) with h1 | h1 | h1
    · exact Or.inl (Or.inl h1)
    · exact Or.inr (Or.inl (by rw [← h1]; exact hlt))
    · exact Or.inr (Or.inl (lt_trans h1 hlt))
  · rcases lt_trichotomy (-c.score) (-b.score) with h1 | h1 | h1
    · exact Or.inl (Or.inl h1)
    · rcases latLt_cotrans hlat (pyLat b) with h2 | h2
      · exact Or.inl (Or.inr ⟨h1, h2⟩)
      · exact Or.inr (Or.inr ⟨by rw [← h1]; exact heq, h2⟩)
    · exact Or.inr (Or.inl (by rw [heq] at h1; exact h1))

theorem minByKey_cons (x s : VPNServer) (rest : List VPNServer) :
    minByKey x (s :: rest) = minByKey (if keyLt s x then s else x) rest := rfl

theorem minByKey_mem (x : VPNServer) (xs : List VPNServer) :
    minByKey x xs ∈ x :: xs := by
  induction xs generalizing x with
  | nil => exact List.mem_singleton.mpr rfl
  | cons s rest ih =>
    rw [minByKey_cons]
    by_cases h : keyLt s x = true
    · rw [if_pos h]
      rcases List.mem_cons.mp (ih s) with h1 | h1
      · rw [h1]; exact List.mem_cons_of_mem _ (List.mem_cons_self _ _)
      · exact List.mem_cons_of_mem _ (List.mem_cons_of_mem _ h1)
    · rw [if_neg h]
      rcases List.mem_cons.mp (ih x) with h1 | h1
      · rw [h1]; exact List.mem_cons_self _ _
      · exact List.mem_cons_of_mem _ (List.mem_cons_of_mem _ h1)

theorem minByKey_min (x : VPNServer) (xs : List VPNServer) :
    ∀ u, u ∈ x :: xs → keyLt u (minByKey x xs) = false := by
  induction xs generalizing x with
  | nil =>
    intro u hu
    rw [List.mem_singleton] at hu
    rw [hu]
    exact keyLt_irrefl x
  | cons s rest ih =>
    intro u hu
    rw [minByKey_cons]
    by_cases h : keyLt s x = true
    · rw [if_pos h]
      rcases List.mem_cons.mp hu with heq | hu'
      · -- u = x, the element the fold dropped in favor of s
        rw [heq, Bool.eq_false_iff]
        intro hc
        have hsm : keyLt s (minByKey s rest) = false :=
          ih s s (List.mem_cons_self s rest)
        rcases keyLt_cotrans hc s with h1 | h1
        · rw [keyLt_asymm h] at h1
          exact Bool.false_ne_true h1
        · rw [hsm] at h1
          exact Bool.false_ne_true h1
      · exact ih s u hu'
    · rw [if_neg h]
      rcases List.mem_cons.mp hu with heq | hu'
      · rw [heq]
        exact ih x x (List.mem_cons_self x rest)
      · rcases List.mem_cons.mp hu' with heq | hur
        · -- u = s, the element the fold dropped in favor of x
          rw [heq, Bool.eq_false_iff]
          intro hc
          have hxm : keyLt x (minByKey x rest) = false :=
            ih x x (List.mem_cons_self x rest)
          rcases keyLt_cotrans hc x with h1 | h1
          · rw [Bool.not_eq_true] at h
            rw [h] at h1
            exact Bool.false_ne_true h1
          · rw [hxm] at h1
            exact Bool.false_ne_true h1
        · exact ih x u (List.mem_cons_of_mem x hur)

end IPRotator

/-! ### Claim C8 -/

/-- Two servers with equal score; one has a recorded latency of exactly `0`,
the other a recorded latency of `5`. -/
def c8sA : VPNServer :=
  ⟨"a", "a.example.net", "198.51.100.1", "US", "X", "ISP", "udp", 1194,
    some 0, none, 1, none⟩

def c8sB : VPNServer :=
  ⟨"b", "b.example.net", "198.51.100.2", "US", "Y", "ISP", "udp", 1194,
    some 5, none, 1, none⟩

/-- C8, counterexample: the claim says that among servers of equal score the
one with lower latency wins and that only *unknown* latency loses to a known
one; here both scores are equal, server `a` has known latency `0`, server `b`
has known latency `5` (so the claim's key orders `a` strictly before `b`,
`claimKeyLt`), yet `get_best_server` returns `b`: Python's
`s.latency or float('inf')` treats the falsy latency `0.0` as `+∞`. -/
theorem C8_counterexample :
    IPRotator.get_best_server [c8sA, c8sB] none = some c8sB ∧
    c8sA.score = c8sB.score ∧ c8sA.latency = some 0 ∧ c8sB.latency = some 5 ∧
    IPRotator.claimKeyLt c8sA c8sB = true := by
  refine ⟨?_, by decide, by decide, by decide, by decide⟩
  decide

/-- C8 (amended): for every server list and optional excluded id,
`get_best_server` returns `none` iff the post-exclusion list is empty, and
otherwise returns a member of the post-exclusion list that is minimal for the
code's key `(-score, latency-or-+∞)` — where `or` is Python's falsy-coalescing,
so a latency recorded as `0` is treated like an unknown latency (`+∞`);
a strictly higher score always wins, ties are broken by lower (nonzero) latency,
and unknown-or-zero latency loses to any known nonzero latency. -/
theorem C8_best_server_characterization
    (servers : List VPNServer) (exclude : Option String) :
    (IPRotator.get_best_server servers exclude = none ↔
      IPRotator.availableServers servers exclude = []) ∧
    (∀ b, IPRotator.get_best_server servers exclude = some b →
      b ∈ IPRotator.availableServers servers exclude ∧
      ∀ s, s ∈ IPRotator.availableServers servers exclude →
        IPRotator.keyLt s b = false) := by
  constructor
  · cases h : IPRotator.availableServers servers exclude with
    | nil => simp [IPRotator.get_best_server, h]
    | cons x xs => simp [IPRotator.get_best_server, h]
  · intro b hb
    cases h : IPRotator.availableServers servers exclude with
    | nil => simp [IPRotator.get_best_server, h] at hb
    | cons x xs =>
      simp only [IPRotator.get_best_server, h, Option.some.injEq] at hb
      rw [← hb]
      exact ⟨IPRotator.minByKey_mem x xs, IPRotator.minByKey_min x xs⟩

/-- A single server used to witness `C8_best_server_characterization`. -/
def c8w : VPNServer :=
  ⟨"w", "w.example.net", "198.51.100.3", "DE", "Z", "ISP", "udp", 1194,
    some 3, none, 2, none⟩

/-- Witness for C8: instantiating the characterization on a concrete
singleton list. -/
theorem C8_witness :
    c8w ∈ IPRotator.availableServers [c8w] none ∧
    (∀ s, s ∈ IPRotator.availableServers [c8w] none →
      IPRotator.keyLt s c8w = false) :=
  (C8_best_server_characterization [c8w] none).2 c8w (by decide)

/-! ## Kill switch (src/vpn_manager/core/kill_switch.py)

The `KillSwitch` methods run `iptables`/`ip6tables` subprocesses.  Each
subprocess outcome is supplied by an environment record; the embedded
control flow around the outcomes follows the source. -/

namespace KillSwitch

/-- Outcome of one `iptables-save -t <table>` / `ip6tables-save -t <table>`
invocation inside `_backup_rules`: success with captured stdout, a nonzero
exit (`subprocess.CalledProcessError`), or a timeout / any other exception
(`subprocess.TimeoutExpired` is *not* caught by the inner
`except subprocess.CalledProcessError` and propagates). -/
inductive SaveResult
  | ok (stdout : String)
  | calledProcessError
  | timedOut
deriving DecidableEq, Repr

/-- The tables `_backup_rules`, `_restore_rules` and `_flush_rules`
iterate over. -/
def ksTables : List String := ["filter", "nat", "mangle"]

/-- Environment of `_backup_rules`: the per-table save outcomes for both
address families and whether the `json.dump` to the backup file succeeds. -/
structure BackupEnv where
  saveV4 : String → SaveResult
  saveV6 : String → SaveResult
  fileWriteOk : Bool

/-- True iff this save result is a timeout (the uncaught exception case). -/
def saveTimedOut : SaveResult → Bool
  | .timedOut => true
  | _ => false

/-- What one save contributes to the recorded snapshot: its stdout when it
succeeded, nothing when it exited nonzero (the table keeps its previous —
initially empty — entry). -/
def recordSave (t : String) (r : SaveResult)
    (acc : List (String × String)) : List (String × String) :=
  match r with
  | .ok s => (t, s) :: acc
  | _ => acc

/-- The `for table in ['filter', 'nat', 'mangle']` loop of `_backup_rules`
(kill_switch.py lines 218-245).  A `calledProcessError` is caught, logged
and skipped, leaving that table out of the recorded snapshot; a `timedOut`
propagates, aborting the loop (`none` — the partial records made before the
abort are unused, since `enable()` then returns without restoring).  On
success it returns the `(table, stdout)` pairs recorded into
`original_rules` for each family. -/
def backup_tables (env : BackupEnv) :
    List String → Option (List (String × String) × List (String × String))
  | [] => some ([], [])
  | t :: ts =>
    if saveTimedOut (env.saveV4 t) || saveTimedOut (env.saveV6 t) then
      none
    else
      match backup_tables env ts with
      | none => none
      | some (v4s, v6s) =>
        some (recordSave t (env.saveV4 t) v4s,
          recordSave t (env.saveV6 t) v6s)

/-- `KillSwitch._backup_rules` (kill_switch.py lines 209-256): runs the
table loop, then writes the backup JSON file; returns `False` exactly when
an uncaught exception occurred (a save timeout, or the file write failing). -/
def backup_rules (env : BackupEnv) : Bool :=
  match backup_tables env ksTables with
  | none => false
  | some _ => env.fileWriteOk

/-- True iff every save of `_backup_rules` succeeded, i.e. the recorded
snapshot covers every table of both families. -/
def savesComplete (env : BackupEnv) : Bool :=
  ksTables.all fun t =>
    (match env.saveV4 t with | .ok _ => true | _ => false) &&
    (match env.saveV6 t with | .ok _ => true | _ => false)

/-- State of a `KillSwitch` object together with the host's firewall,
abstracted over a type `Fw` of firewall configurations: `active` is the
object's flag, `firewall` the on-host packet-filter state, and `snapshot`
the content of `original_rules` (`none` when nothing usable was captured —
the initial empty strings, or a partial capture, which `_restore_rules`
cannot replay in full). -/
structure KSState (Fw : Type) where
  active : Bool
  firewall : Fw
  snapshot : Option Fw

/-- Environment for `enable`/`disable`: outcome of each phase.
`probesOk`: the DNS / gateway / local-network probes raise no exception;
`applyOk`: every `iptables` command of `_flush_rules`/`_apply_ipv4_rules`
succeeds (on failure `run_iptables` re-raises), with `midFw` the
intermediate firewall left behind by a mid-apply failure and `appliedFw`
the firewall after a complete flush+apply; `verifyOk`: result of
`_verify_rules`; `saveStateOk`: the `_save_state` file write;
`restoreOk`: the `iptables-restore` invocations of `_restore_rules`
succeed, and `fallbackFw` is the firewall produced by the fallback path
(backup-file restore or `_emergency_recovery`) when they do not. -/
structure EnableEnv (Fw : Type) where
  backup : BackupEnv
  probesOk : Bool
  applyOk : Bool
  midFw : Fw
  appliedFw : Fw
  verifyOk : Bool
  saveStateOk : Bool
  restoreOk : Bool
  fallbackFw : Fw

/-- `KillSwitch._restore_rules` (kill_switch.py lines 258-329): replay the
in-memory snapshot; if that cannot be done, fall back to the backup file
and finally `_emergency_recovery`.  Never raises; never touches `active`. -/
def restore_rules {Fw : Type} (env : EnableEnv Fw) (s : KSState Fw) :
    KSState Fw :=
  match s.snapshot with
  | some snap =>
    if env.restoreOk then { s with firewall := snap }
    else { s with firewall := env.fallbackFw }
  | none => { s with firewall := env.fallbackFw }

/-- Result of `enable`: the returned bool, the new object/firewall state,
and which effects ran (`backupInvoked`: `_backup_rules` was called;
`restoreInvoked`: `_restore_rules` was called; `rulesMutated`: at least one
firewall-mutating command ran). -/
structure EnableResult (Fw : Type) where
  ret : Bool
  state : KSState Fw
  backupInvoked : Bool
  restoreInvoked : Bool
  rulesMutated : Bool

/-- `KillSwitch.enable` (kill_switch.py lines 106-162). -/
def enable {Fw : Type} (env : EnableEnv Fw) (s : KSState Fw)
    (force allowLan : Bool) : EnableResult Fw :=
  if s.active && !force then
    -- already active and not forced: warn and return True
    ⟨true, s, false, false, false⟩
  else if !(backup_rules env.backup) then
    -- backup failed: log and return False, nothing else ran
    ⟨false, s, true, false, false⟩
  else
    -- a complete save set captures the entry firewall; a partial one
    -- (some save exited nonzero but backup still "succeeded") is a
    -- snapshot `_restore_rules` cannot fully replay, modelled as `none`
    let s1 : KSState Fw :=
      { s with snapshot :=
          if savesComplete env.backup then some s.firewall else none }
    if !env.probesOk then
      -- exception before any rule mutation: outer except → restore → False
      ⟨false, restore_rules env s1, true, true, false⟩
    else if !env.applyOk then
      -- _flush_rules/_apply_ipv4_rules raised mid-way → restore → False
      ⟨false, restore_rules env { s1 with firewall := env.midFw },
        true, true, true⟩
    else
      let s2 : KSState Fw := { s1 with firewall := env.appliedFw }
      if !env.verifyOk then
        -- verification failed → restore → False
        ⟨false, restore_rules env s2, true, true, true⟩
      else if !env.saveStateOk then
        -- _save_state raised → outer except → restore → False
        ⟨false, restore_rules env s2, true, true, true⟩
      else
        ⟨true, { s2 with active := true }, true, false, true⟩

/-- Result of `disable`. -/
structure DisableResult (Fw : Type) where
  ret : Bool
  state : KSState Fw
  restoreInvoked : Bool

/-- `KillSwitch.disable` (kill_switch.py lines 164-181): no-op returning
True when already inactive; otherwise restore, clean up the state files,
clear `active`. -/
def disable {Fw : Type} (env : EnableEnv Fw) (s : KSState Fw) :
    DisableResult Fw :=
  if !s.active then
    ⟨true, s, false⟩
  else
    let s1 := restore_rules env s
    ⟨true, { s1 with active := false }, true⟩

/-- `KillSwitch._verify_rules` (kill_switch.py lines 483-511), over the
outcome of `iptables -L -n` (`none` = the subprocess raised, caught by the
enclosing `except`, returning False).  The code lowercases the output and
requires only that the substring `"policy drop"` occurs somewhere; the
check whether the interface pattern occurs in the output merely logs a
warning and has no effect on the returned value. -/
def verify_rules (iface : String) (cmdOutput : Option String) : Bool :=
  match cmdOutput with
  | none => false
  | some stdout =>
    if strContains (lowerStr stdout) "policy drop" then
      -- here the source checks `self.interface.replace('+', '') not in
      -- output` but only to log a warning; the result is unaffected
      true
    else false

/-- `KillSwitch.add_vpn_server` stores `(ip, protocol.lower(), port)`
dictionaries in `allowed_vpn_servers`. -/
structure VpnEndpoint where
  ip : String
  protocol : String
  port : Nat
deriving DecidableEq, Repr

/-- `KillSwitch.add_vpn_server` (kill_switch.py lines 82-99): lowercase the
protocol, append the dict only if it is not already present. -/
def add_vpn_server (l : List VpnEndpoint) (ip protocol : String)
    (port : Nat) : List VpnEndpoint :=
  let server : VpnEndpoint := ⟨ip, protocol.toLower, port⟩
  if server ∈ l then l else l ++ [server]

/-- The accept-out rule `_apply_ipv4_rules` emits for one allowed VPN
endpoint (kill_switch.py lines 413-420):
`iptables -A OUTPUT -d <ip> -p <protocol> --dport <port> -j ACCEPT`. -/
structure VpnAcceptRule where
  dest : String
  proto : String
  dport : Nat
deriving DecidableEq, Repr

def vpn_server_rule (s : VpnEndpoint) : VpnAcceptRule :=
  ⟨s.ip, s.protocol, s.port⟩

/-- The `for server in self.allowed_vpn_servers` loop of
`_apply_ipv4_rules`: one accept-out rule per stored endpoint, in order. -/
def vpn_server_rules (l : List VpnEndpoint) : List VpnAcceptRule :=
  l.map vpn_server_rule

theorem saveTimedOut_iff (r : SaveResult) :
    saveTimedOut r = true ↔ r = .timedOut := by
  cases r <;> simp [saveTimedOut]

theorem backup_tables_eq_none (env : BackupEnv) (l : List String) :
    backup_tables env l = none ↔
    ∃ t ∈ l, env.saveV4 t = .timedOut ∨ env.saveV6 t = .timedOut := by
  induction l with
  | nil => simp [backup_tables]
  | cons t ts ih =>
    by_cases h : (saveTimedOut (env.saveV4 t) || saveTimedOut (env.saveV6 t)) = true
    · have hto : env.saveV4 t = .timedOut ∨ env.saveV6 t = .timedOut := by
        rcases Bool.or_eq_true_iff.mp h with h1 | h1
        · exact Or.inl ((saveTimedOut_iff _).mp h1)
        · exact Or.inr ((saveTimedOut_iff _).mp h1)
      simp only [backup_tables, if_pos h]
      exact iff_of_true trivial ⟨t, List.mem_cons_self t ts, hto⟩
    · have h4 : ¬ env.saveV4 t = .timedOut := fun hc =>
        h (Bool.or_eq_true_iff.mpr (Or.inl ((saveTimedOut_iff _).mpr hc)))
      have h6 : ¬ env.saveV6 t = .timedOut := fun hc =>
        h (Bool.or_eq_true_iff.mpr (Or.inr ((saveTimedOut_iff _).mpr hc)))
      simp only [backup_tables, if_neg h]
      cases hb : backup_tables env ts with
      | none =>
        rcases ih.mp hb with ⟨u, hu, hor⟩
        exact iff_of_true rfl ⟨u, List.mem_cons_of_mem t hu, hor⟩
      | some p =>
        apply iff_of_false
        · cases p
          simp
        · rintro ⟨u, hu, hor⟩
          rcases List.mem_cons.mp hu with heq | hu'
          · subst heq
            rcases hor with hc | hc
            · exact h4 hc
            · exact h6 hc
          · have hcontra := ih.mpr ⟨u, hu', hor⟩
            rw [hb] at hcontra
            cases hcontra

theorem backup_rules_eq_false (env : BackupEnv) :
    backup_rules env = false ↔
    ((∃ t ∈ ksTables, env.saveV4 t = .timedOut ∨ env.saveV6 t = .timedOut) ∨
      env.fileWriteOk = false) := by
  unfold backup_rules
  cases hb : backup_tables env ksTables with
  | none =>
    exact iff_of_true rfl (Or.inl ((backup_tables_eq_none env ksTables).mp hb))
  | some p =>
    have hno : ¬ ∃ t ∈ ksTables,
        env.saveV4 t = .timedOut ∨ env.saveV6 t = .timedOut := by
      intro hex
      have h := (backup_tables_eq_none env ksTables).mpr hex
      rw [hb] at h
      cases h
    simp [hno]

end KillSwitch

/-! ### Claim C1 -/

/-- The property claim C1 asserts of `_verify_rules`: the parsed
`iptables -L -n` output shows the default policy of all three chains INPUT,
FORWARD and OUTPUT as DROP, and the primary tunnel interface pattern appears
in at least one ACCEPT rule. -/
def claimVerify (iface : String) (out : String) : Bool :=
  let o := lowerStr out
  strContains o "chain input (policy drop)" &&
  strContains o "chain forward (policy drop)" &&
  strContains o "chain output (policy drop)" &&
  (splitStr o '\n').any
    (fun line => strContains line "accept" &&
      strContains line (String.mk (iface.data.filter (fun c => c ≠ '+'))))

/-- An `iptables -L -n` output in which only INPUT has policy DROP and the
tunnel-interface pattern appears nowhere. -/
def c1Output : String :=
  "Chain INPUT (policy DROP)\nChain FORWARD (policy ACCEPT)\nChain OUTPUT (policy ACCEPT)\ntarget     prot opt source               destination\n"

/-- C1, counterexample: on an output where only one of the three chains has
policy DROP and the tunnel-interface pattern appears in no rule,
`_verify_rules` returns `true`, while the claim requires `false`: the code
only looks for one occurrence of the substring `"policy drop"` and the
interface check merely logs a warning. -/
theorem C1_counterexample :
    KillSwitch.verify_rules "tun+" (some c1Output) = true ∧
    claimVerify "tun+" c1Output = false := by
  constructor
  · decide
  · decide

/-- C1 (amended): `_verify_rules` returns `true` iff the `iptables -L -n`
invocation succeeded and the substring `"policy drop"` occurs at least once
in the lowercased output; neither the individual chains nor the presence of
the tunnel-interface pattern affect the result (the latter is checked only
to log a warning). -/
theorem C1_verify_characterization (iface : String) (r : Option String) :
    KillSwitch.verify_rules iface r = true ↔
    ∃ out, r = some out ∧ strContains (lowerStr out) "policy drop" = true := by
  cases r with
  | none => simp [KillSwitch.verify_rules]
  | some out =>
    cases h : strContains (lowerStr out) "policy drop" with
    | false => simp [KillSwitch.verify_rules, h]
    | true => simp [KillSwitch.verify_rules, h]

/-! ### Claim C3 -/

/-- A backup environment in which every save exits nonzero and the backup
file write succeeds. -/
def c3CexEnv : KillSwitch.BackupEnv :=
  ⟨fun _ => .calledProcessError, fun _ => .calledProcessError, true⟩

/-- C3, counterexample: every `iptables-save`/`ip6tables-save` invocation
exits nonzero, yet `_backup_rules` reports success — the nonzero exits are
caught by the inner `except subprocess.CalledProcessError` and only logged,
so the claim's "some save exits nonzero ⟹ snapshot reports failure" is
false on the code. -/
theorem C3_counterexample :
    KillSwitch.backup_rules c3CexEnv = true ∧
    c3CexEnv.saveV4 "filter" = .calledProcessError ∧
    c3CexEnv.saveV6 "filter" = .calledProcessError := by
  refine ⟨by decide, rfl, rfl⟩

/-- C3 (amended): `_backup_rules` reports failure exactly when some save
*times out* (raises anything other than a nonzero-exit error) or the backup
file write fails; a save that merely exits nonzero is logged and skipped
(that table is left out of the snapshot) and the snapshot still reports
success.  Whenever the snapshot does report failure, the enclosing
`enable()` aborts with no state change: it returns failure, invokes no
restore, mutates no rules, and the kill switch stays inactive. -/
theorem C3_backup_characterization (Fw : Type)
    (env : KillSwitch.EnableEnv Fw) (s : KillSwitch.KSState Fw)
    (force allowLan : Bool) :
    (KillSwitch.backup_rules env.backup = false ↔
      ((∃ t ∈ KillSwitch.ksTables,
          env.backup.saveV4 t = .timedOut ∨
          env.backup.saveV6 t = .timedOut) ∨
        env.backup.fileWriteOk = false)) ∧
    (s.active = false → KillSwitch.backup_rules env.backup = false →
      KillSwitch.enable env s force allowLan = ⟨false, s, true, false, false⟩) := by
  constructor
  · exact KillSwitch.backup_rules_eq_false env.backup
  · intro hactive hfail
    simp [KillSwitch.enable, hactive, hfail]

/-- Environment for the C3 witness: the filter-table IPv4 save times out. -/
def c3wEnv : KillSwitch.EnableEnv Nat :=
  ⟨⟨fun t => if t = "filter" then .timedOut else .ok "", fun _ => .ok "",
    true⟩, true, true, 1, 2, true, true, true, 3⟩

/-- Witness for C3: applying the characterization at a concrete environment
whose filter-table save times out, from a concrete inactive state. -/
theorem C3_witness :
    KillSwitch.enable c3wEnv ⟨false, 7, none⟩ false true =
      ⟨false, ⟨false, 7, none⟩, true, false, false⟩ :=
  (C3_backup_characterization Nat c3wEnv ⟨false, 7, none⟩ false true).2
    rfl (by decide)

/-! ### Claim C4 -/

/-- C4 (confirmed): every path through `enable()` that returns failure
after a (complete) snapshot was taken has invoked `_restore_rules`, the
resulting firewall equals the firewall captured at entry (assuming the
`iptables-restore` invocations themselves succeed, i.e. modulo the caveat
of the claim), and the `active` flag stays false. -/
theorem C4_enable_failure_restores (Fw : Type)
    (env : KillSwitch.EnableEnv Fw) (s : KillSwitch.KSState Fw)
    (force allowLan : Bool)
    (hactive : s.active = false)
    (hbackup : KillSwitch.backup_rules env.backup = true)
    (hcomplete : KillSwitch.savesComplete env.backup = true)
    (hrestore : env.restoreOk = true)
    (hfail : (KillSwitch.enable env s force allowLan).ret = false) :
    (KillSwitch.enable env s force allowLan).restoreInvoked = true ∧
    (KillSwitch.enable env s force allowLan).state.firewall = s.firewall ∧
    (KillSwitch.enable env s force allowLan).state.active = false := by
  cases hp : env.probesOk <;> cases ha : env.applyOk <;>
    cases hv : env.verifyOk <;> cases hsv : env.saveStateOk <;>
    simp_all [KillSwitch.enable, KillSwitch.restore_rules]

/-- Environment for the C4 witness: snapshot succeeds, rules apply, but
verification fails. -/
def c4wEnv : KillSwitch.EnableEnv Nat :=
  ⟨⟨fun _ => .ok "v4rules", fun _ => .ok "v6rules", true⟩,
    true, true, 1, 2, false, true, true, 3⟩

/-- Witness for C4: a concrete failing enable (verification fails) restores
the entry firewall and leaves the switch inactive. -/
theorem C4_witness :
    (KillSwitch.enable c4wEnv ⟨false, 7, none⟩ false true).restoreInvoked = true ∧
    (KillSwitch.enable c4wEnv ⟨false, 7, none⟩ false true).state.firewall = 7 ∧
    (KillSwitch.enable c4wEnv ⟨false, 7, none⟩ false true).state.active = false :=
  C4_enable_failure_restores Nat c4wEnv ⟨false, 7, none⟩ false true rfl
    (by decide) (by decide) rfl (by decide)

/-! ### Claim C7 -/

/-- C7 (confirmed): `enable(force=False)` while already active returns
success and performs nothing — no snapshot, no restore, no rule mutation,
state unchanged; `disable()` while already inactive returns success and
performs no restore, state unchanged. -/
theorem C7_repeat_noop (Fw : Type) (env : KillSwitch.EnableEnv Fw)
    (s : KillSwitch.KSState Fw) (allowLan : Bool) :
    (s.active = true →
      KillSwitch.enable env s false allowLan = ⟨true, s, false, false, false⟩) ∧
    (s.active = false →
      KillSwitch.disable env s = ⟨true, s, false⟩) := by
  constructor
  · intro h
    simp [KillSwitch.enable, h]
  · intro h
    simp [KillSwitch.disable, h]

/-- Environment for the C7 witness. -/
def c7wEnv : KillSwitch.EnableEnv Nat :=
  ⟨⟨fun _ => .ok "v4", fun _ => .ok "v6", true⟩,
    true, true, 1, 2, true, true, true, 3⟩

/-- Witness for C7: concrete already-active enable and already-inactive
disable are no-ops reporting success. -/
theorem C7_witness :
    KillSwitch.enable c7wEnv ⟨true, 5, none⟩ false true =
      ⟨true, ⟨true, 5, none⟩, false, false, false⟩ ∧
    KillSwitch.disable c7wEnv ⟨false, 5, none⟩ =
      ⟨true, ⟨false, 5, none⟩, false⟩ :=
  ⟨(C7_repeat_noop Nat c7wEnv ⟨true, 5, none⟩ true).1 rfl,
   (C7_repeat_noop Nat c7wEnv ⟨false, 5, none⟩ true).2 rfl⟩

/-! ### Claim C10 -/

theorem vpn_server_rule_injective :
    Function.Injective KillSwitch.vpn_server_rule := by
  intro a b h
  cases a
  cases b
  simpa [KillSwitch.vpn_server_rule, KillSwitch.VpnAcceptRule.mk.injEq,
    KillSwitch.VpnEndpoint.mk.injEq] using h

theorem add_vpn_server_count (l : List KillSwitch.VpnEndpoint)
    (ip protocol : String) (port : Nat)
    (h : (l.count (⟨ip, protocol.toLower, port⟩ : KillSwitch.VpnEndpoint)) ≤ 1) :
    (KillSwitch.add_vpn_server l ip protocol port).count
      (⟨ip, protocol.toLower, port⟩ : KillSwitch.VpnEndpoint) = 1 := by
  unfold KillSwitch.add_vpn_server
  by_cases hm : (⟨ip, protocol.toLower, port⟩ : KillSwitch.VpnEndpoint) ∈ l
  · rw [if_pos hm]
    have h1 : 0 < l.count (⟨ip, protocol.toLower, port⟩ : KillSwitch.VpnEndpoint) :=
      List.count_pos_iff.mpr hm
    omega
  · rw [if_neg hm, List.count_append, List.count_eq_zero_of_not_mem hm]
    simp

/-- C10 (confirmed): however many times `add_vpn_server` is called with the
same `(ip, protocol, port)` triple (at least once), a list that held that
endpoint at most once afterwards holds exactly one matching entry, whose
protocol is the lowercased one, and the `_apply_ipv4_rules` loop therefore
emits exactly one accept-out rule for the endpoint. -/
theorem C10_add_vpn_server_once (l : List KillSwitch.VpnEndpoint)
    (ip protocol : String) (port n : Nat)
    (hn : 1 ≤ n)
    (hcount : (l.count (⟨ip, protocol.toLower, port⟩ : KillSwitch.VpnEndpoint)) ≤ 1) :
    (((fun acc => KillSwitch.add_vpn_server acc ip protocol port)^[n] l).count
      (⟨ip, protocol.toLower, port⟩ : KillSwitch.VpnEndpoint) = 1) ∧
    ((KillSwitch.vpn_server_rules
        ((fun acc => KillSwitch.add_vpn_server acc ip protocol port)^[n] l)).count
      (KillSwitch.vpn_server_rule ⟨ip, protocol.toLower, port⟩) = 1) := by
  have hmain : ∀ m, 1 ≤ m →
      (((fun acc => KillSwitch.add_vpn_server acc ip protocol port)^[m] l).count
        (⟨ip, protocol.toLower, port⟩ : KillSwitch.VpnEndpoint) = 1) := by
    intro m
    induction m with
    | zero => omega
    | succ k ih =>
      intro _
      rw [Function.iterate_succ_apply']
      rcases Nat.eq_zero_or_pos k with h0 | hk
      · subst h0
        simpa using add_vpn_server_count l ip protocol port hcount
      · exact add_vpn_server_count _ ip protocol port (le_of_eq (ih hk))
  refine ⟨hmain n hn, ?_⟩
  rw [KillSwitch.vpn_server_rules,
    List.count_map_of_injective _ _ vpn_server_rule_injective]
  exact hmain n hn

/-- Witness for C10: three repeated adds of the same endpoint (uppercase
protocol) on the empty list leave exactly one entry and one rule. -/
theorem C10_witness :
    ((((fun acc => KillSwitch.add_vpn_server acc "198.51.100.10" "UDP" 1194)^[3] []).count
      (⟨"198.51.100.10", "UDP".toLower, 1194⟩ : KillSwitch.VpnEndpoint) = 1) ∧
    ((KillSwitch.vpn_server_rules
        ((fun acc => KillSwitch.add_vpn_server acc "198.51.100.10" "UDP" 1194)^[3] [])).count
      (KillSwitch.vpn_server_rule ⟨"198.51.100.10", "UDP".toLower, 1194⟩) = 1)) :=
  C10_add_vpn_server_once [] "198.51.100.10" "UDP" 1194 3 (by decide) (by decide)

/-! ## VPN controller (src/vpn_manager/core/vpn_controller.py)

The controller's `connect` / `rotate_ip` / `emergency_disconnect` and
`_change_state` are embedded as functions over a controller-state record
plus an environment supplying the outcomes of the kill-switch enable, the
backend `connect`, and the rotator's random pick. -/

namespace Controller

/-- `VPNState` (vpn_controller.py lines 23-29). -/
inductive VPNState
  | DISCONNECTED
  | CONNECTING
  | CONNECTED
  | DISCONNECTING
  | ERROR
  | ROTATING
deriving DecidableEq, Repr

/-- The controller fields the embedded operations read and write:
`state`, `current_server`, `stats.dns_servers`, and whether
`vpn_client` / `kill_switch` are non-None plus the kill switch's
`active` flag. -/
structure Ctl where
  state : VPNState
  currentServer : Option VPNServer
  statsDns : List String
  vpnClientPresent : Bool
  killSwitchPresent : Bool
  killSwitchActive : Bool
deriving DecidableEq, Repr

/-- One fired `state_change(old, new, message)` callback, recording also the
value of the controller's `state` field at the moment the callbacks run. -/
structure StateChangeEvent where
  old : VPNState
  new : VPNState
  stateAtDispatch : VPNState
deriving DecidableEq, Repr

/-- `VPNController._change_state` (vpn_controller.py lines 505-511): the
`state` field is assigned first, then the callbacks fire — so the event's
`stateAtDispatch` is the state of the *updated* controller. -/
def change_state (c : Ctl) (newState : VPNState) : Ctl × StateChangeEvent :=
  let old := c.state
  let cNew : Ctl := { c with state := newState }
  (cNew, ⟨old, newState, cNew.state⟩)

/-- `VPNController._cleanup_resources` (vpn_controller.py lines 495-501):
`current_server = None`, `stats = ConnectionStats()` (so `dns_servers`
becomes `[]`), `vpn_client = None`; the kill switch is left as is. -/
def cleanup_resources (c : Ctl) : Ctl :=
  { c with currentServer := none, statsDns := [], vpnClientPresent := false }

/-- Environment for `connect`/`rotate_ip`:
`ksEnableOutcome`: outcome of `KillSwitch()` construction plus `enable()` —
`none` if either raised, `some b` if `enable()` returned `b` (in which case
the new instance's `active` flag equals `b`);
`backendConnect`: result of `vpn_client.connect(server)` by server id
(`false` makes `connect` raise `ConnectionError`);
`configDns`: `self.config['dns_servers']`;
`randomPick`: result of `ip_rotator.get_random_server()`. -/
structure CtlEnv where
  ksEnableOutcome : Option Bool
  backendConnect : String → Bool
  configDns : List String
  randomPick : Option VPNServer

/-- Result of `connect`: returned bool, final controller state, the
`state_change` events fired, and the ids of the servers on which a backend
`connect` was invoked (nonempty iff a tunnel backend was launched). -/
structure ConnectResult where
  ret : Bool
  ctl : Ctl
  events : List StateChangeEvent
  attempts : List String
deriving Repr

/-- `VPNController.connect` (vpn_controller.py lines 111-184).

Note the treatment of the kill switch: `self.kill_switch.enable()` is
called but its boolean result is *discarded*; only an exception from
`KillSwitch()`/`enable()` reaches the `except` handler. -/
def connect (env : CtlEnv) (c : Ctl) (server : VPNServer)
    (enableKs : Bool) (dns : Option (List String)) : ConnectResult :=
  if c.state = .CONNECTING || c.state = .CONNECTED then
    -- "Already connected or connecting": return False, no transition
    ⟨false, c, [], []⟩
  else
    let p1 := change_state c .CONNECTING
    let c1 := p1.1
    let ksStep : Option Ctl :=
      if enableKs then
        match env.ksEnableOutcome with
        | none => none
        | some b =>
          some { c1 with killSwitchPresent := true, killSwitchActive := b }
      else some c1
    match ksStep with
    | none =>
      -- KillSwitch()/enable() raised → except: cleanup, ERROR, False
      let c2 := cleanup_resources c1
      let p2 := change_state c2 .ERROR
      ⟨false, p2.1, [p1.2, p2.2], []⟩
    | some c2 =>
      -- construct the backend client and call connect(server)
      let c3 : Ctl := { c2 with vpnClientPresent := true }
      if !(env.backendConnect server.id) then
        -- ConnectionError → except: cleanup, ERROR, False
        let c4 := cleanup_resources c3
        let p2 := change_state c4 .ERROR
        ⟨false, p2.1, [p1.2, p2.2], [server.id]⟩
      else
        let dnsList :=
          match dns with
          | none => env.configDns
          | some l => if l = [] then env.configDns else l
        let c4 : Ctl :=
          { c3 with currentServer := some server, statsDns := dnsList }
        let p2 := change_state c4 .CONNECTED
        ⟨true, p2.1, [p1.2, p2.2], [server.id]⟩

/-- Result of `rotate_ip`. -/
structure RotateResult where
  ret : Bool
  ctl : Ctl
  attempts : List String
deriving Repr

/-- `VPNController.rotate_ip` with `random_location=True`
(vpn_controller.py lines 228-308).

After a failed `connect` to the new server, `self.current_server` has been
set to `None` by `_cleanup_resources`, so the `if self.current_server:`
fallback that would reconnect to the previous server is guarded by an
always-`None` field. -/
def rotate_ip (env : CtlEnv) (c : Ctl) : RotateResult :=
  if c.state ≠ .CONNECTED then
    ⟨false, c, []⟩
  else
    let p1 := change_state c .ROTATING
    let c1 := p1.1
    match env.randomPick with
    | none =>
      -- "No suitable server found" → except: ERROR, False
      let p2 := change_state c1 .ERROR
      ⟨false, p2.1, []⟩
    | some newServer =>
      let ksWasActive := c1.killSwitchPresent && c1.killSwitchActive
      -- temporarily disable the kill switch for a smooth transition
      let c2 := if ksWasActive then { c1 with killSwitchActive := false }
        else c1
      -- self.vpn_client.disconnect() tears the tunnel down (no field change)
      let dns := c2.statsDns
      let r := connect env c2 newServer ksWasActive (some dns)
      if r.ret then
        ⟨true, r.ctl, r.attempts⟩
      else
        match r.ctl.currentServer with
        | some prev =>
          let r2 := connect env r.ctl prev ksWasActive (some dns)
          ⟨false, r2.ctl, r.attempts ++ r2.attempts⟩
        | none => ⟨false, r.ctl, r.attempts⟩

/-- `VPNController.emergency_disconnect` (vpn_controller.py lines 310-331):
stop the monitor, best-effort `force_disconnect` on the client and
`disable()` on the kill switch (errors swallowed), then transition to
DISCONNECTED unconditionally — `_change_state` is called whatever the
current state is. -/
def emergency_disconnect (c : Ctl) : Ctl × StateChangeEvent :=
  let c1 := if c.killSwitchPresent then { c with killSwitchActive := false }
    else c
  change_state c1 .DISCONNECTED

end Controller

/-! ### Claim C2 -/

/-- The server of spec scenario S1. -/
def c2Server : VPNServer :=
  ⟨"s0", "vpn.example.net", "198.51.100.10", "US", "NYC", "ExampleISP",
    "udp", 1194, none, none, 0, none⟩

/-- Environment in which the kill switch's `enable()` reports failure
(returns `False` without raising) while the backend connect succeeds. -/
def c2Env : Controller.CtlEnv :=
  ⟨some false, fun _ => true, ["1.1.1.1"], none⟩

/-- A freshly initialized controller. -/
def c2Ctl : Controller.Ctl :=
  ⟨.DISCONNECTED, none, [], false, false, false⟩

/-- C2: `connect` with `enable_kill_switch=True` whose kill-switch
`enable()` returns `False` nevertheless launches the tunnel backend
(a backend connect on `"s0"` is attempted) and, the backend succeeding,
returns `True` in state CONNECTED with the kill switch inactive — the
boolean result of `enable()` is discarded, contradicting the claim that
`connect` must return `False` and end in ERROR without launching a
backend. -/
theorem C2_enable_failure_ignored :
    c2Env.ksEnableOutcome = some false ∧
    (Controller.connect c2Env c2Ctl c2Server true none).ret = true ∧
    (Controller.connect c2Env c2Ctl c2Server true none).ctl.state = .CONNECTED ∧
    (Controller.connect c2Env c2Ctl c2Server true none).ctl.killSwitchActive = false ∧
    (Controller.connect c2Env c2Ctl c2Server true none).attempts = ["s0"] := by
  refine ⟨rfl, ?_, ?_, ?_, ?_⟩ <;> decide

/-! ### Claim C5 -/

def c5s1 : VPNServer :=
  ⟨"s1", "one.example.net", "198.51.100.11", "US", "NYC", "ExampleISP",
    "udp", 1194, none, none, 0, none⟩

def c5s2 : VPNServer :=
  ⟨"s2", "two.example.net", "198.51.100.12", "DE", "Berlin", "ExampleISP",
    "udp", 1194, none, none, 0, none⟩

/-- Controller CONNECTED to `s1` with an active kill switch. -/
def c5Ctl : Controller.Ctl :=
  ⟨.CONNECTED, some c5s1, ["1.1.1.1"], true, true, true⟩

/-- Environment of spec scenario S5: the rotation picks `s2`, the backend
connect to `s2` fails, a backend connect to `s1` would succeed. -/
def c5Env : Controller.CtlEnv :=
  ⟨some true, fun i => i != "s2", ["1.1.1.1"], some c5s2⟩

/-- C5: with the controller CONNECTED to `s1`, a rotation whose new-server
connect fails does *not* fall back to `s1` even though reconnecting to `s1`
would succeed: the failed `connect` already ran `_cleanup_resources`,
setting `current_server` to `None`, so the `if self.current_server:` guard
skips the reconnect; the only backend attempt is on `"s2"` and the
controller ends in ERROR — contradicting the claim (and spec scenario S5)
that the final state is CONNECTED to `s1`. -/
theorem C5_rotate_no_fallback :
    c5Env.backendConnect "s1" = true ∧
    (Controller.rotate_ip c5Env c5Ctl).ret = false ∧
    (Controller.rotate_ip c5Env c5Ctl).ctl.state = .ERROR ∧
    (Controller.rotate_ip c5Env c5Ctl).ctl.currentServer = none ∧
    (Controller.rotate_ip c5Env c5Ctl).attempts = ["s2"] := by
  refine ⟨rfl, ?_, ?_, ?_, ?_⟩ <;> decide

/-! ### Claim C6 -/

/-- A controller already in DISCONNECTED. -/
def c6Ctl : Controller.Ctl :=
  ⟨.DISCONNECTED, none, [], false, false, false⟩

/-- C6, counterexample: `emergency_disconnect` — which may fire from any
state — invoked while already DISCONNECTED fires a `state_change` callback
with `old = new = DISCONNECTED`, so the claim's "the old state differs from
the new state" is false on the code: `_change_state` fires its callbacks
unconditionally. -/
theorem C6_counterexample :
    (Controller.emergency_disconnect c6Ctl).2.old =
      (Controller.emergency_disconnect c6Ctl).2.new ∧
    (Controller.emergency_disconnect c6Ctl).2.old = .DISCONNECTED := by
  exact ⟨rfl, rfl⟩

/-- C6 (amended): every `state_change` callback is fired only after the
controller's `state` field has been updated to the new state — the event's
dispatch-time state equals its `new` component, for `_change_state` itself
and for every event a `connect` call fires; the `old ≠ new` / valid-walk
part of the claim does not hold (see the counterexample). -/
theorem C6_callbacks_after_update :
    (∀ (c : Controller.Ctl) (s : Controller.VPNState),
      (Controller.change_state c s).1.state = s ∧
      (Controller.change_state c s).2.stateAtDispatch =
        (Controller.change_state c s).1.state ∧
      (Controller.change_state c s).2.old = c.state ∧
      (Controller.change_state c s).2.new = s) ∧
    (∀ (env : Controller.CtlEnv) (c : Controller.Ctl) (server : VPNServer)
      (enableKs : Bool) (dns : Option (List String)),
      ∀ e ∈ (Controller.connect env c server enableKs dns).events,
        e.stateAtDispatch = e.new) := by
  constructor
  · intro c s
    exact ⟨rfl, rfl, rfl, rfl⟩
  · intro env c server enableKs dns e he
    by_cases h1 : (c.state = Controller.VPNState.CONNECTING ||
        c.state = Controller.VPNState.CONNECTED) = true
    · simp [Controller.connect, h1] at he
    · cases enableKs <;> cases hks : env.ksEnableOutcome <;>
        by_cases h2 : env.backendConnect server.id = true <;>
        simp [Controller.connect, h1, hks, h2] at he <;>
        rcases he with he | he <;> subst he <;> rfl

/-- Witness for C6: the events of a concrete successful `connect` all
dispatch with the state field already holding the new state. -/
theorem C6_witness :
    ∀ e ∈ (Controller.connect c2Env c2Ctl c2Server false none).events,
      e.stateAtDispatch = e.new :=
  C6_callbacks_after_update.2 c2Env c2Ctl c2Server false none

/-! ## Network tools (src/vpn_manager/utils/network_tools.py)

`get_public_ip` fetches from HTTPS echo services and validates candidate
addresses with `ipaddress.ip_address`, which succeeds on *any* IP address
string — IPv4 or IPv6, routable or not.  The parsers below embed the
`ipaddress` module's string grammar. -/

namespace NetworkTools

/-- Decimal value of an ASCII digit. -/
def digitVal (c : Char) : Nat := c.toNat - 48

/-- The `ipaddress` module's `_parse_octet`: 1-3 ASCII digits, value at
most 255, no leading zero (`"0"` is fine, `"00"`/`"010"` are not). -/
def parseOctet (s : List Char) : Option Nat :=
  if s.isEmpty then none
  else if !(s.all Char.isDigit) then none
  else if s.length > 3 then none
  else
    let n := s.foldl (fun acc c => acc * 10 + digitVal c) 0
    if n > 255 then none
    else if s.length > 1 && (s.headD '0' == '0') then none
    else some n

/-- The `ipaddress` module's IPv4 string parse: exactly four octets
separated by dots.  Returns the octet values on success. -/
def parseIPv4 (s : String) : Option (List Nat) :=
  let parts := splitCharAux '.' s.data []
  if parts.length ≠ 4 then none
  else
    let octs := parts.map parseOctet
    if octs.all Option.isSome then some (octs.map (fun o => o.getD 0))
    else none

/-- Hexadecimal digit test (the `ipaddress` module's `_HEX_DIGITS`). -/
def isHexChar (c : Char) : Bool :=
  Char.isDigit c || (decide ('a' ≤ c) && decide (c ≤ 'f')) ||
    (decide ('A' ≤ c) && decide (c ≤ 'F'))

/-- The `ipaddress` module's `_parse_hextet` validity: 1-4 hex digits. -/
def parseHextet (s : List Char) : Bool :=
  !s.isEmpty && s.length ≤ 4 && s.all isHexChar

/-- The `ipaddress` module's IPv6 string grammar
(`IPv6Address._ip_int_from_string`), validity only: split on `':'`; at
least 3 parts; an embedded dotted-quad allowed in the last part (it counts
as two hextets); at most one `'::'`; leading/trailing `':'` only as part of
`'::'`; the hextet count must work out to 8. -/
def parseIPv6NoScope (addr : String) : Bool :=
  let parts0 := (splitCharAux ':' addr.data []).map String.mk
  if parts0.length < 3 then false
  else
    let lastPart := parts0.getLastD ""
    let partsOpt :=
      if strContains lastPart "." then
        match parseIPv4 lastPart with
        | some _ => some (parts0.dropLast ++ ["0", "0"])
        | none => none
      else some parts0
    match partsOpt with
    | none => false
    | some parts =>
      if parts.length > 9 then false
      else
        let inner := (parts.drop 1).dropLast
        if 2 ≤ inner.countP (fun p => p == "") then false
        else
          match inner.findIdx? (fun p => p == "") with
          | some j =>
            let skipIdx := j + 1
            let headEmpty := parts.headD "x" == ""
            let lastEmpty := parts.getLastD "x" == ""
            if headEmpty && (skipIdx != 1) then false
            else
              let partsHi := if headEmpty then skipIdx - 1 else skipIdx
              let partsLo0 := parts.length - skipIdx - 1
              if lastEmpty && (partsLo0 != 1) then false
              else
                let partsLo := if lastEmpty then partsLo0 - 1 else partsLo0
                if partsHi + partsLo > 7 then false
                else
                  ((parts.take partsHi).all fun p => parseHextet p.data) &&
                  ((parts.drop (parts.length - partsLo)).all
                    fun p => parseHextet p.data)
          | none =>
            if parts.length ≠ 8 then false
            else if parts.headD "x" == "" then false
            else if parts.getLastD "x" == "" then false
            else parts.all fun p => parseHextet p.data

/-- `IPv6Address` accepts an optional nonempty scope id after a single
`'%'` (`_split_scope_id`). -/
def parseIPv6 (s : String) : Bool :=
  match splitCharAux '%' s.data [] with
  | [addr] => parseIPv6NoScope (String.mk addr)
  | [addr, scope] => !scope.isEmpty && parseIPv6NoScope (String.mk addr)
  | _ => false

/-- `NetworkTools._is_valid_ip` (network_tools.py lines 311-317):
`ipaddress.ip_address(ip)` succeeds iff the string parses as an IPv4
address or as an IPv6 address; no routability check of any kind. -/
def is_valid_ip (ip : String) : Bool :=
  (parseIPv4 ip).isSome || parseIPv6 ip

/-- The ordered echo-service list of `get_public_ip`
(network_tools.py lines 44-49). -/
def services : List String :=
  ["https://api.ipify.org", "https://icanhazip.com",
    "https://checkip.amazonaws.com", "https://ifconfig.me/ip"]

/-- The cache fields `_public_ip_cache` and `_cache_time`. -/
structure NetCache where
  publicIpCache : Option String
  cacheTime : ℚ
deriving DecidableEq, Repr

/-- Environment of `get_public_ip`: per-service fetch outcome (`none` =
`URLError`/`socket.timeout`, caught and skipped; `some body` = the decoded
response) and the current wall-clock time. -/
structure PubIpEnv where
  fetch : String → Option String
  now : ℚ

/-- Python truthiness of `self._public_ip_cache`. -/
def truthyCache : Option String → Bool
  | none => false
  | some s => !s.data.isEmpty

/-- The cache test at the top of `get_public_ip`:
`not force_refresh and self._public_ip_cache and
current_time - self._cache_time < self.cache_duration` (300 s). -/
def cacheFresh (st : NetCache) (now : ℚ) (forceRefresh : Bool) : Bool :=
  !forceRefresh && truthyCache st.publicIpCache &&
    decide (now - st.cacheTime < 300)

/-- The `for service in services:` loop of `get_public_ip`: a caught fetch
exception skips to the next service; a response is stripped and returned if
it validates, otherwise the loop also moves on. -/
def tryServices (env : PubIpEnv) : List String → Option String
  | [] => none
  | svc :: rest =>
    match env.fetch svc with
    | none => tryServices env rest
    | some body =>
      let ip := stripStr body
      if is_valid_ip ip then some ip else tryServices env rest

/-- `NetworkTools.get_public_ip` (network_tools.py lines 36-67), returning
the result and the updated cache. -/
def get_public_ip (env : PubIpEnv) (st : NetCache) (forceRefresh : Bool) :
    Option String × NetCache :=
  if cacheFresh st env.now forceRefresh then
    (st.publicIpCache, st)
  else
    match tryServices env services with
    | some ip => (some ip, ⟨some ip, env.now⟩)
    | none => (none, st)

theorem tryServices_eq (env : PubIpEnv) (l : List String) :
    tryServices env l = l.findSome? (fun svc =>
      match env.fetch svc with
      | none => none
      | some body =>
        if is_valid_ip (stripStr body) then some (stripStr body)
        else none) := by
  induction l with
  | nil => rfl
  | cons svc rest ih =>
    cases hf : env.fetch svc with
    | none => simp [tryServices, List.findSome?_cons, hf, ih]
    | some body =>
      by_cases hv : is_valid_ip (stripStr body) = true
      · simp [tryServices, List.findSome?_cons, hf, hv]
      · simp [tryServices, List.findSome?_cons, hf, hv, ih]

theorem tryServices_valid (env : PubIpEnv) (l : List String) (ip : String)
    (h : tryServices env l = some ip) : is_valid_ip ip = true := by
  induction l with
  | nil => simp [tryServices] at h
  | cons svc rest ih =>
    cases hf : env.fetch svc with
    | none =>
      simp only [tryServices, hf] at h
      exact ih h
    | some body =>
      simp only [tryServices, hf] at h
      by_cases hv : is_valid_ip (stripStr body) = true
      · rw [if_pos hv] at h
        cases h
        exact hv
      · rw [if_neg hv] at h
        exact ih h

theorem tryServices_all_fail (env : PubIpEnv) (l : List String)
    (h : ∀ svc ∈ l, env.fetch svc = none) : tryServices env l = none := by
  induction l with
  | nil => rfl
  | cons svc rest ih =>
    rw [tryServices, h svc (List.mem_cons_self svc rest)]
    exact ih (fun s hs => h s (List.mem_cons_of_mem svc hs))

end NetworkTools

/-! ### Claim C9 -/

/-- IPv4 global routability as the claim requires (the IANA special-purpose
ranges — private, loopback, link-local, carrier-grade NAT, documentation,
benchmarking, multicast, reserved, unspecified, broadcast — are not
globally routable). -/
def globallyRoutableIPv4 : List Nat → Bool
  | [a, b, c, _] =>
    !(decide (a = 0) || decide (a = 10) || decide (a = 127) ||
      (decide (a = 100) && decide (64 ≤ b) && decide (b ≤ 127)) ||
      (decide (a = 169) && decide (b = 254)) ||
      (decide (a = 172) && decide (16 ≤ b) && decide (b ≤ 31)) ||
      (decide (a = 192) && decide (b = 0) && decide (c = 0)) ||
      (decide (a = 192) && decide (b = 0) && decide (c = 2)) ||
      (decide (a = 192) && decide (b = 168)) ||
      (decide (a = 198) && (decide (b = 18) || decide (b = 19))) ||
      (decide (a = 198) && decide (b = 51) && decide (c = 100)) ||
      (decide (a = 203) && decide (b = 0) && decide (c = 113)) ||
      decide (224 ≤ a))
  | _ => false

/-- The validation claim C9 requires of a public-IP candidate: it parses as
an IPv4 address *and* that address is globally routable. -/
def claimValidIp (s : String) : Bool :=
  match NetworkTools.parseIPv4 s with
  | some octets => globallyRoutableIPv4 octets
  | none => false

/-- Environment for the C9 counterexample: the first echo service answers
with the private address `10.0.0.1`; every other service fails. -/
def c9Env : NetworkTools.PubIpEnv :=
  ⟨fun svc => if svc == "https://api.ipify.org" then some "10.0.0.1"
    else none, 0⟩

/-- C9, counterexample: a response that is not globally routable (the
private `10.0.0.1` fails the claim's validation, so under the claim every
service fails and the result should be `none`) is accepted and returned by
`get_public_ip`: `_is_valid_ip` only checks that `ipaddress.ip_address`
parses, with no routability (or even IPv4-ness) requirement. -/
theorem C9_counterexample :
    (NetworkTools.get_public_ip c9Env ⟨none, 0⟩ false).1 = some "10.0.0.1" ∧
    claimValidIp "10.0.0.1" = false := by
  constructor <;> decide

/-- C9 (amended): `get_public_ip` returns the cached address unchanged when
a prior result is cached, nonempty, less than 300 seconds old and no forced
refresh is requested; otherwise it tries the fixed ordered service list and
returns the first stripped response that parses as an IP address — IPv4 or
IPv6, with no global-routability requirement — caching it with the current
time; every returned address satisfies (only) that parse check, and if
every service fails it returns `none` with the cache unchanged. -/
theorem C9_public_ip_characterization (env : NetworkTools.PubIpEnv)
    (st : NetworkTools.NetCache) (forceRefresh : Bool) :
    (NetworkTools.cacheFresh st env.now forceRefresh = true →
      NetworkTools.get_public_ip env st forceRefresh = (st.publicIpCache, st)) ∧
    (NetworkTools.cacheFresh st env.now forceRefresh = false →
      ((NetworkTools.get_public_ip env st forceRefresh).1 =
        NetworkTools.services.findSome? (fun svc =>
          match env.fetch svc with
          | none => none
          | some body =>
            if NetworkTools.is_valid_ip (stripStr body) then
              some (stripStr body)
            else none) ∧
      (∀ ip, (NetworkTools.get_public_ip env st forceRefresh).1 = some ip →
        NetworkTools.is_valid_ip ip = true ∧
        (NetworkTools.get_public_ip env st forceRefresh).2 =
          ⟨some ip, env.now⟩) ∧
      ((NetworkTools.get_public_ip env st forceRefresh).1 = none →
        (NetworkTools.get_public_ip env st forceRefresh).2 = st) ∧
      ((∀ svc ∈ NetworkTools.services, env.fetch svc = none) →
        (NetworkTools.get_public_ip env st forceRefresh).1 = none))) := by
  constructor
  · intro h
    simp [NetworkTools.get_public_ip, h]
  · intro h
    have hmain : NetworkTools.get_public_ip env st forceRefresh =
        (match NetworkTools.tryServices env NetworkTools.services with
          | some ip => (some ip, ⟨some ip, env.now⟩)
          | none => (none, st)) := by
      simp [NetworkTools.get_public_ip, h]
    refine ⟨?_, ?_, ?_, ?_⟩
    · rw [hmain, ← NetworkTools.tryServices_eq]
      cases NetworkTools.tryServices env NetworkTools.services <;> rfl
    · intro ip hip
      rw [hmain] at hip ⊢
      cases htr : NetworkTools.tryServices env NetworkTools.services with
      | none =>
        rw [htr] at hip
        simp at hip
      | some found =>
        rw [htr] at hip
        have hfi : found = ip := by simpa using hip
        subst hfi
        exact ⟨NetworkTools.tryServices_valid env _ _ htr, rfl⟩
    · intro hnone
      rw [hmain] at hnone ⊢
      cases htr : NetworkTools.tryServices env NetworkTools.services with
      | none => rfl
      | some found =>
        rw [htr] at hnone
        simp at hnone
    · intro hall
      rw [hmain, NetworkTools.tryServices_all_fail env _ hall]

/-- Environment for the C9 witness: the first service answers with a
whitespace-wrapped public address. -/
def c9wEnv : NetworkTools.PubIpEnv :=
  ⟨fun svc => if svc == "https://api.ipify.org" then some " 8.8.8.8\n"
    else none, 100⟩

/-- Witness for C9: with an empty cache, a concrete fetch environment
returns the stripped first valid response. -/
theorem C9_witness :
    (NetworkTools.get_public_ip c9wEnv ⟨none, 0⟩ false).1 = some "8.8.8.8" := by
  have h := (C9_public_ip_characterization c9wEnv ⟨none, 0⟩ false).2 (by decide)
  rw [h.1]
  decide

end VpnManager
